import Mathlib

/-!
Verification development for the selkies legacy RTC session layer
(`src/selkies/legacy/rtc.py`).

The Python module is shallowly embedded below:
* `PipelineBridge` models the one-slot `asyncio.Queue(maxsize=1)` bridge;
  `get_data` returning `none` models the consumer suspending on an empty
  queue.
* `receive_data` models `RTCApp.receive_data`, with GStreamer samples,
  buffers and caps embedded as records; Python exceptions are embedded as
  the `Except` error channel, and `packet_raises` marks buffers for which
  `av.Packet(...)` (the body of the `try` block) would raise.
* `RTCApp` keeps the session-owned references that the lifecycle and
  control-channel operations touch; data-channel sends are collected into
  an explicit `SendResult` list together with the log entries the code
  emits.  `json.dumps` and the wire serialization are collaborator
  boundaries, so messages stay structured (`ControlMessage`).
* Python floats in control payloads are idealized as exact rationals.
-/

namespace Selkies

/-- Log levels used by the `logging` calls in `rtc.py`. -/
inductive LogLevel where
  | debug
  | info
  | warning
  | error
deriving DecidableEq, Repr

/-- A log entry: level plus message text. -/
abbrev LogEntry := LogLevel × String

/-- Embedded Python exceptions raised by the module or by attribute access
on `None` (as `rtc.py` would when a cleared reference is used). -/
inductive PyErr where
  | rtcAppError (msg : String)
  | valueError (msg : String)
  | attributeError
  | stopIteration
deriving DecidableEq, Repr

/-- `PipelineBridge`: the bridge between Media and the RTC pipeline.  The
`asyncio.Queue(maxsize=1)` is embedded as the list of queued items (front
of the list = front of the queue). -/
structure PipelineBridge (α : Type) where
  queue : List α
deriving DecidableEq, Repr

/-- The `maxsize=1` bound of the bridge queue. -/
def QUEUE_MAXSIZE : Nat := 1

/-- `self._queue.full()`. -/
def PipelineBridge.full (b : PipelineBridge α) : Bool :=
  QUEUE_MAXSIZE ≤ b.queue.length

/-- `PipelineBridge.set_data`: under the lock, if the queue is full the old
item is removed (`get_nowait`), then the new one is appended
(`put_nowait`). -/
def set_data (b : PipelineBridge α) (d : α) : PipelineBridge α :=
  let q := if b.full then b.queue.drop 1 else b.queue
  ⟨q ++ [d]⟩

/-- `PipelineBridge.get_data`: removes and returns the front item;
`none` models the `await` suspending on an empty queue. -/
def get_data (b : PipelineBridge α) : Option (α × PipelineBridge α) :=
  match b.queue with
  | [] => none
  | d :: rest => some (d, ⟨rest⟩)

/-- `av.Packet` as used by `receive_data`: payload bytes, a rational
`time_base`, and optional `pts`/`dts` (fresh packets carry neither). -/
structure Packet where
  payload : List Nat
  time_base : Rat
  pts : Option Int
  dts : Option Int
deriving DecidableEq, Repr

/-- `Gst.MapFlags.READ` mapping result: the contiguous byte view. -/
structure GstMapInfo where
  data : List Nat
deriving DecidableEq, Repr

/-- A GStreamer buffer as `receive_data` consumes it.  `pts = none` embeds
Python `None`; the unset sentinel `Gst.CLOCK_TIME_NONE` is the value
`CLOCK_TIME_NONE` below.  `map_ok` is the boolean result of
`buf.map(Gst.MapFlags.READ)`, and `packet_raises` marks buffers for which
the packet construction inside the `try` block raises. -/
structure GstBuffer where
  pts : Option Nat
  map_ok : Bool
  map_info : GstMapInfo
  packet_raises : Bool
deriving DecidableEq, Repr

/-- The caps structure: `get_int("rate")` returns a success flag and an
integer (0 when the field is absent), as GStreamer does; `rtc.py`
discards the flag. -/
structure GstCaps where
  rate_ok : Bool
  rate : Int
deriving DecidableEq, Repr

/-- A GStreamer sample: `get_buffer()` and `get_caps()` may return None. -/
structure GstSample where
  buffer : Option GstBuffer
  caps : Option GstCaps
deriving DecidableEq, Repr

/-- `Gst.FlowReturn` values `receive_data` returns explicitly. -/
inductive FlowReturn where
  | OK
  | ERROR
deriving DecidableEq, Repr

/-- `Gst.CLOCK_TIME_NONE` (the unset 64-bit sentinel). -/
def CLOCK_TIME_NONE : Nat := 18446744073709551615

/-- The fixed 90 kHz RTP video clock rate from `receive_data`. -/
def RTP_VIDEO_CLOCK_RATE : Int := 90000

/-- `buf.pts is not None and buf.pts != Gst.CLOCK_TIME_NONE`. -/
def pts_defined : Option Nat → Bool
  | none => false
  | some t => t != CLOCK_TIME_NONE

/-- The video branch of the `try` block in `receive_data`: build the
packet, set `time_base = Fraction(1, 90000)`, and when the buffer
timestamp is defined set `pts = buf.pts * 90000 // 10^9` and `dts = pts`.
An exception inside the block is the `Except.error` case. -/
def build_video_packet (buf : GstBuffer) : Except String Packet :=
  if buf.packet_raises then
    .error "error processing video sample"
  else
    let p : Packet :=
      ⟨buf.map_info.data, (1 : Rat) / (RTP_VIDEO_CLOCK_RATE : Rat), none, none⟩
    if pts_defined buf.pts then
      let v : Int := Int.fdiv ((buf.pts.getD 0 : Int) * RTP_VIDEO_CLOCK_RATE) 1000000000
      .ok { p with pts := some v, dts := some v }
    else
      .ok p

/-- The audio branch of the `try` block in `receive_data`: take the clock
rate from the caps (`if not clock_rate:` falls back to 48000 with a
warning), set `time_base = Fraction(1, clock_rate)`, and when the buffer
timestamp is defined set `pts = buf.pts * clock_rate // 10^9`.  `dts` is
never assigned on the audio path.  The warning log of the fallback is
returned alongside the packet. -/
def build_audio_packet (buf : GstBuffer) (caps : GstCaps) :
    Except String (Packet × List LogEntry) :=
  if buf.packet_raises then
    .error "error processing audio sample"
  else
    let clock_rate0 := caps.rate
    let fallback := clock_rate0 == 0
    let clock_rate : Int := if fallback then 48000 else clock_rate0
    let logs : List LogEntry :=
      if fallback then
        [(LogLevel.warning, "Could not get clock-rate from caps, falling back to 48000")]
      else []
    let p : Packet := ⟨buf.map_info.data, (1 : Rat) / (clock_rate : Rat), none, none⟩
    if pts_defined buf.pts then
      let v : Int := Int.fdiv ((buf.pts.getD 0 : Int) * clock_rate) 1000000000
      .ok ({ p with pts := some v }, logs)
    else
      .ok (p, logs)

/-- The outcome of one `receive_data` call: the Python return value
(`none` embeds falling off the end, i.e. returning `None`), the log
entries emitted, and the two bridge references after the call. -/
structure RecvResult where
  ret : Option FlowReturn
  logs : List LogEntry
  video_pipeline_bridge : Option (PipelineBridge Packet)
  audio_pipeline_bridge : Option (PipelineBridge Packet)
deriving DecidableEq, Repr

/-- `RTCApp.receive_data(sample, kind)`.  The two bridge references of the
session are passed in and the (possibly updated) references are part of
the result.  An uncaught Python exception would be the `Except.error`
case of the result. -/
def receive_data (video_bridge audio_bridge : Option (PipelineBridge Packet))
    (sample : Option GstSample) (kind : String) :
    Except PyErr RecvResult :=
  match sample with
  | none =>
      .ok ⟨none, [(LogLevel.warning, "sample received is empty")],
           video_bridge, audio_bridge⟩
  | some s =>
      match s.buffer, s.caps with
      | none, _ =>
          .ok ⟨some FlowReturn.OK,
               [(LogLevel.warning, "receive_data: buffer or caps is None")],
               video_bridge, audio_bridge⟩
      | some _, none =>
          .ok ⟨some FlowReturn.OK,
               [(LogLevel.warning, "receive_data: buffer or caps is None")],
               video_bridge, audio_bridge⟩
      | some buf, some caps =>
          if !buf.map_ok then
            .ok ⟨some FlowReturn.ERROR, [], video_bridge, audio_bridge⟩
          else if kind == "video" then
            match build_video_packet buf with
            | .error m =>
                .ok ⟨none, [(LogLevel.error, m)], video_bridge, audio_bridge⟩
            | .ok pkt =>
                let vb := match video_bridge with
                  | none => none
                  | some b => some (set_data b pkt)
                .ok ⟨none, [], vb, audio_bridge⟩
          else
            match build_audio_packet buf caps with
            | .error m =>
                .ok ⟨none, [(LogLevel.error, m)], video_bridge, audio_bridge⟩
            | .ok (pkt, logs) =>
                let ab := match audio_bridge with
                  | none => none
                  | some b => some (set_data b pkt)
                .ok ⟨none, logs, video_bridge, ab⟩

/-- A JSON-like value for control-channel payloads (`json.dumps` and the
wire serialization are a collaborator boundary).  Python floats are
idealized as exact rationals. -/
inductive JVal where
  | jStr : String → JVal
  | jNum : Rat → JVal
  | jBool : Bool → JVal
  | jObj : List (String × JVal) → JVal
deriving Repr

/-- The control-channel envelope `{"type": msg_type, "data": data}`. -/
structure ControlMessage where
  type : String
  data : JVal
deriving Repr

/-- An `RTCSessionDescription`. -/
structure RTCSessionDescription where
  sdp : String
  type : String
deriving DecidableEq, Repr

/-- The peer-connection collaborator as this module observes it: the
connection state string and the installed remote description. -/
structure PeerConnection where
  connectionState : String
  remoteDescription : Option RTCSessionDescription
deriving DecidableEq, Repr

/-- The session-owned references of `RTCApp` that its lifecycle and
control-channel operations touch (event-handler fields and the static
STUN/TURN configuration carry no claim and are omitted).  Channels are
embedded by their presence; sent messages are collected by the send
operations themselves. -/
structure RTCApp where
  peer_connection : Option PeerConnection
  data_channel : Option Unit
  aux_data_channel : Option Unit
  audio_pipeline_bridge : Option (PipelineBridge Packet)
  video_pipeline_bridge : Option (PipelineBridge Packet)
  last_cursor_sent : Option JVal

/-- `RTCApp.set_sdp(sdp_type, sdp)`: raises `RTCAppError` when the type
is not "answer", raises when the sdp is `None`, and otherwise installs
the remote description on the peer connection (attribute access on an
absent peer connection raises). -/
def set_sdp (pc : Option PeerConnection) (sdp_type : String)
    (sdp : Option String) : Except PyErr PeerConnection :=
  if sdp_type != "answer" then
    .error (.rtcAppError "ERROR: sdp type was not answer")
  else
    match sdp with
    | none => .error (.rtcAppError "ERROR: sdp must not be None")
    | some s =>
        match pc with
        | none => .error .attributeError
        | some p => .ok { p with remoteDescription := some ⟨s, sdp_type⟩ }

/-- `RTCApp.is_data_channel_ready`: `self.data_channel and
self.peer_connection.connectionState == "connected"`.  A `None` channel
short-circuits to falsy (embedded as `false`); with a channel present the
state of the peer connection is read, which raises when that reference is
absent. -/
def is_data_channel_ready (app : RTCApp) : Except PyErr Bool :=
  match app.data_channel with
  | none => .ok false
  | some _ =>
      match app.peer_connection with
      | none => .error .attributeError
      | some pc => .ok (pc.connectionState == "connected")

/-- Well-formedness of the session state: a data channel is only ever
present together with a peer connection (`start_rtc_pipeline` assigns
both, `stop_pipeline` clears both). -/
def wf_channel (app : RTCApp) : Prop :=
  app.data_channel.isSome → app.peer_connection.isSome

/-- The observable outcome of a send operation: the envelopes handed to
`data_channel.send` and the log entries emitted. -/
structure SendResult where
  sent : List ControlMessage
  logs : List LogEntry
deriving Repr

/-- The debug diagnostic `__send_data_channel_message` logs when the
channel is not ready. -/
def skip_msg (msg_type : String) : String :=
  "skipping message because data channel is not ready: " ++ msg_type

/-- `RTCApp.__send_data_channel_message(msg_type, data)`: drops the
message with a debug log when the channel is not ready, otherwise sends
exactly one serialized envelope. -/
def send_data_channel_message (app : RTCApp) (msg_type : String)
    (data : JVal) : Except PyErr SendResult := do
  let ready ← is_data_channel_ready app
  if !ready then
    return ⟨[], [(LogLevel.debug, skip_msg msg_type)]⟩
  return ⟨[⟨msg_type, data⟩], []⟩

/-- Prefix the log entries a send method emits before delegating to
`__send_data_channel_message`. -/
def with_logs (lg : List LogEntry) (r : SendResult) : SendResult :=
  ⟨r.sent, lg ++ r.logs⟩

/-- The base64 alphabet. -/
def b64chars : List Char :=
  "ABCDEFGHIJKLMNOPQRSTUVWXYZabcdefghijklmnopqrstuvwxyz0123456789+/".toList

/-- The base64 digit for a 6-bit value. -/
def b64char (n : Nat) : Char := b64chars.getD n (Char.ofNat 65)

/-- `base64.b64encode` on a byte sequence (the `data.encode()` UTF-8 step
that produces these bytes is the Python stdlib boundary).  `Char.ofNat
61` is the padding character. -/
def b64encode : List Nat → List Char
  | a :: b :: c :: rest =>
      b64char (a / 4) :: b64char (a % 4 * 16 + b / 16) ::
        b64char (b % 16 * 4 + c / 64) :: b64char (c % 64) :: b64encode rest
  | [a, b] =>
      [b64char (a / 4), b64char (a % 4 * 16 + b / 16),
       b64char (b % 16 * 4), Char.ofNat 61]
  | [a] =>
      [b64char (a / 4), b64char (a % 4 * 16), Char.ofNat 61, Char.ofNat 61]
  | [] => []

/-- The clipboard size restriction from `send_clipboard_data`. -/
def CLIPBOARD_RESTRICTION : Nat := 65400

/-- The warning logged when an oversized clipboard payload is dropped. -/
def clipboard_warn : String :=
  "clipboard may not be sent to the client because the base64 message length is above the maximum length"

/-- `RTCApp.send_clipboard_data(data)`: base64-encode the payload bytes;
send one `clipboard` envelope when the encoded length is within the
restriction, otherwise emit nothing and log a warning. -/
def send_clipboard_data (app : RTCApp) (data : List Nat) :
    Except PyErr SendResult :=
  let clipboard_message := b64encode data
  if clipboard_message.length ≤ CLIPBOARD_RESTRICTION then
    send_data_channel_message app "clipboard"
      (.jObj [("content", .jStr ⟨clipboard_message⟩)])
  else
    .ok ⟨[], [(LogLevel.warning, clipboard_warn)]⟩

/-- `RTCApp.send_cursor_data(data)`: records the data as
`last_cursor_sent` first, then hands a `cursor` envelope to the channel
send (which may drop it). -/
def send_cursor_data (app : RTCApp) (data : JVal) :
    Except PyErr (RTCApp × SendResult) := do
  let app2 := { app with last_cursor_sent := some data }
  let r ← send_data_channel_message app2 "cursor" data
  return (app2, r)

/-- `RTCApp.send_gpu_stats(load, memory_total, memory_used)`. -/
def send_gpu_stats (app : RTCApp) (load memory_total memory_used : Rat) :
    Except PyErr SendResult :=
  send_data_channel_message app "gpu_stats"
    (.jObj [("load", .jNum load), ("memory_total", .jNum memory_total),
            ("memory_used", .jNum memory_used)])

/-- `RTCApp.send_reload_window()`. -/
def send_reload_window (app : RTCApp) : Except PyErr SendResult := do
  let r ← send_data_channel_message app "system" (.jObj [("action", .jStr "reload")])
  return with_logs [(LogLevel.info, "sending window reload")] r

/-- `RTCApp.send_framerate(framerate)`. -/
def send_framerate (app : RTCApp) (framerate : Int) : Except PyErr SendResult := do
  let r ← send_data_channel_message app "system"
    (.jObj [("action", .jStr ("videoFramerate," ++ toString framerate))])
  return with_logs [(LogLevel.info, "sending framerate")] r

/-- `RTCApp.send_video_bitrate(bitrate)`. -/
def send_video_bitrate (app : RTCApp) (bitrate : Int) : Except PyErr SendResult := do
  let r ← send_data_channel_message app "system"
    (.jObj [("action", .jStr ("video_bitrate," ++ toString bitrate))])
  return with_logs [(LogLevel.info, "sending video bitrate")] r

/-- `RTCApp.send_audio_bitrate(bitrate)`. -/
def send_audio_bitrate (app : RTCApp) (bitrate : Int) : Except PyErr SendResult := do
  let r ← send_data_channel_message app "system"
    (.jObj [("action", .jStr ("audio_bitrate," ++ toString bitrate))])
  return with_logs [(LogLevel.info, "sending audio bitrate")] r

/-- `RTCApp.send_encoder(encoder)`. -/
def send_encoder (app : RTCApp) (encoder : String) : Except PyErr SendResult := do
  let r ← send_data_channel_message app "system"
    (.jObj [("action", .jStr ("encoder," ++ encoder))])
  return with_logs [(LogLevel.info, "sending encoder: " ++ encoder)] r

/-- Python `str` on a boolean. -/
def pystr_bool (b : Bool) : String := if b then "True" else "False"

/-- `RTCApp.send_resize_enabled(resize_enabled)`. -/
def send_resize_enabled (app : RTCApp) (resize_enabled : Bool) :
    Except PyErr SendResult := do
  let r ← send_data_channel_message app "system"
    (.jObj [("action", .jStr ("resize," ++ pystr_bool resize_enabled))])
  return with_logs [(LogLevel.info, "sending resize enabled state")] r

/-- `RTCApp.send_remote_resolution(res)`. -/
def send_remote_resolution (app : RTCApp) (res : String) :
    Except PyErr SendResult := do
  let r ← send_data_channel_message app "system"
    (.jObj [("action", .jStr ("resolution," ++ res))])
  return with_logs [(LogLevel.info, "sending remote resolution of: " ++ res)] r

/-- The `float("%.3f" % t)` step of `send_ping`: round to three decimal
places (idealizing binary floating point as exact rationals). -/
def fmt3 (t : Rat) : Rat := ((round (t * 1000) : Int) : Rat) / 1000

/-- `RTCApp.send_ping(t)`. -/
def send_ping (app : RTCApp) (t : Rat) : Except PyErr SendResult :=
  send_data_channel_message app "ping" (.jObj [("start_time", .jNum (fmt3 t))])

/-- `RTCApp.send_latency_time(latency)`. -/
def send_latency_time (app : RTCApp) (latency : Rat) : Except PyErr SendResult :=
  send_data_channel_message app "latency_measurement"
    (.jObj [("latency_ms", .jNum latency)])

/-- `RTCApp.send_system_stats(cpu_percent, mem_total, mem_used)`. -/
def send_system_stats (app : RTCApp) (cpu_percent mem_total mem_used : Rat) :
    Except PyErr SendResult :=
  send_data_channel_message app "system_stats"
    (.jObj [("cpu_percent", .jNum cpu_percent), ("mem_total", .jNum mem_total),
            ("mem_used", .jNum mem_used)])

/-- `RTCApp.send_media_data_over_channel(msg_type, data)`. -/
def send_media_data_over_channel (app : RTCApp) (msg_type : String)
    (data : JVal) : Except PyErr SendResult :=
  send_data_channel_message app msg_type data

/-- `RTCApp.stop_pipeline()`: `await self.peer_connection.close()` (which
raises when that reference is already absent), then clear the peer
connection, both data channels and both bridges. -/
def stop_pipeline (app : RTCApp) : Except PyErr RTCApp :=
  match app.peer_connection with
  | none => .error .attributeError
  | some _ =>
      .ok { app with
              peer_connection := none
              data_channel := none
              aux_data_channel := none
              video_pipeline_bridge := none
              audio_pipeline_bridge := none }

/-- Python `str.lower()` on the ASCII MIME-type strings `force_codec`
compares (character-wise lowercasing). -/
def py_lower (s : String) : String := ⟨s.data.map Char.toLower⟩

/-- A codec capability as `force_codec` inspects it. -/
structure RTCRtpCodecCapability where
  mimeType : String
deriving DecidableEq, Repr

/-- A transceiver: the identity of its sender and its codec preference
list (`none` until `setCodecPreferences` is called). -/
structure RTCRtpTransceiver where
  sender : Nat
  codecPreferences : Option (List RTCRtpCodecCapability)
deriving DecidableEq, Repr

/-- `transceiver.setCodecPreferences` on the first transceiver owning the
sender (the `next(...)` lookup in `force_codec`). -/
def set_first_prefs (sender_id : Nat) (prefs : List RTCRtpCodecCapability) :
    List RTCRtpTransceiver → List RTCRtpTransceiver
  | [] => []
  | t :: ts =>
      if t.sender == sender_id then
        { t with codecPreferences := some prefs } :: ts
      else
        t :: set_first_prefs sender_id prefs ts

/-- `RTCApp.force_codec(pc, sender, forced_codec_mime)`.  The capability
list returned by `RTCRtpSender.getCapabilities(kind)` and the
connection's transceiver list are collaborator inputs; the sender is
embedded by its identity and `sender.track.kind` by `kind`.  The first
exact MIME match is chosen; the first capability whose lowercased MIME is
`kind ++ "/rtx"` is the retransmission codec; either being absent raises
a `ValueError`, an absent owning transceiver raises `StopIteration`. -/
def force_codec (capabilities : List RTCRtpCodecCapability)
    (transceivers : List RTCRtpTransceiver) (sender_id : Nat) (kind : String)
    (forced_codec_mime : String) :
    Except PyErr (List RTCRtpTransceiver) :=
  match capabilities.find? (fun c => c.mimeType == forced_codec_mime) with
  | none => .error (.valueError "Codec not found in capabilities")
  | some chosen_codec =>
      match capabilities.find? (fun c => py_lower c.mimeType == kind ++ "/rtx") with
      | none => .error (.valueError "RTX codec not found")
      | some rtx_codec =>
          match transceivers.find? (fun t => t.sender == sender_id) with
          | none => .error .stopIteration
          | some _ =>
              .ok (set_first_prefs sender_id [chosen_codec, rtx_codec] transceivers)

/-! ## Helper lemmas -/

/-- A `set_data` on a bridge holding at most one item always leaves the
queue holding exactly the new item. -/
theorem set_data_eq {α : Type} (b : PipelineBridge α) (d : α)
    (h : b.queue.length ≤ QUEUE_MAXSIZE) : set_data b d = ⟨[d]⟩ := by
  obtain ⟨q⟩ := b
  match q with
  | [] => rfl
  | [x] => rfl
  | x :: y :: l => simp [QUEUE_MAXSIZE] at h

/-- Folding a nonempty list of `set_data` calls over a capacity-respecting
bridge leaves exactly the last item queued. -/
theorem foldl_set_data_eq {α : Type} (ds : List α) :
    ∀ (hne : ds ≠ []) (b : PipelineBridge α),
      b.queue.length ≤ QUEUE_MAXSIZE →
      List.foldl set_data b ds = ⟨[ds.getLast hne]⟩ := by
  induction ds with
  | nil => intro hne; exact absurd rfl hne
  | cons d rest ih =>
      intro hne b hb
      rcases eq_or_ne rest [] with hr | hr
      · subst hr
        show set_data b d = _
        rw [set_data_eq b d hb]
        rfl
      · have h1 : List.foldl set_data b (d :: rest) =
            List.foldl set_data (set_data b d) rest := rfl
        rw [h1, set_data_eq b d hb, ih hr _ (by simp [QUEUE_MAXSIZE])]
        simp [List.getLast_cons hr]

/-! ## C1 -/

/-- C1: on any bridge satisfying the capacity-1 invariant, a sequence of
`n ≥ 1` `set_data` calls followed by one `get_data` returns exactly the
last item set and empties the slot; the fold preserves the "at most one
pending item" invariant (the slot holds exactly the newest item), and
`get_data` on an empty bridge suspends (`none`). -/
theorem bridge_newest_wins {α : Type} (b : PipelineBridge α) (ds : List α)
    (hcap : b.queue.length ≤ QUEUE_MAXSIZE) (hne : ds ≠ []) :
    List.foldl set_data b ds = ⟨[ds.getLast hne]⟩ ∧
    get_data (List.foldl set_data b ds) = some (ds.getLast hne, ⟨[]⟩) ∧
    get_data (⟨[]⟩ : PipelineBridge α) = none := by
  have h := foldl_set_data_eq ds hne b hcap
  exact ⟨h, by rw [h]; rfl, rfl⟩

/-- C1 witness: three sets of `1, 2, 3` on an empty bridge followed by a
get return `3` and leave the bridge empty. -/
theorem bridge_newest_wins_witness :
    get_data (List.foldl set_data (⟨[]⟩ : PipelineBridge Nat) [1, 2, 3]) =
      some (3, ⟨[]⟩) :=
  (bridge_newest_wins (⟨[]⟩ : PipelineBridge Nat) [1, 2, 3] (by decide)
    (by decide)).2.1

/-! ## C2 -/

/-- C2: timestamp conversion of `receive_data`.  With a defined buffer
timestamp `t` ns, a video sample yields a packet with
`pts = dts = t * 90000 // 10^9` at time base `1/90000`; an audio sample
with declared clock rate `r ≠ 0` yields `pts = t * r // 10^9` at time
base `1/r`; an absent declared audio rate (`get_int` returning 0) falls
back to 48000 with a logged warning; and an undefined buffer timestamp
(None or the unset sentinel) leaves the packet without a timestamp, for
video and audio alike. -/
theorem receive_data_timestamps :
    (∀ (vb : PipelineBridge Packet) (ab : Option (PipelineBridge Packet))
       (d : List Nat) (t : Nat) (caps : GstCaps), t ≠ CLOCK_TIME_NONE →
       receive_data (some vb) ab
           (some ⟨some ⟨some t, true, ⟨d⟩, false⟩, some caps⟩) "video" =
         .ok ⟨none, [],
           some (set_data vb ⟨d, (1 : Rat) / (RTP_VIDEO_CLOCK_RATE : Rat),
             some (Int.fdiv ((t : Int) * RTP_VIDEO_CLOCK_RATE) 1000000000),
             some (Int.fdiv ((t : Int) * RTP_VIDEO_CLOCK_RATE) 1000000000)⟩),
           ab⟩) ∧
    (∀ (vb : Option (PipelineBridge Packet)) (ab : PipelineBridge Packet)
       (d : List Nat) (t : Nat) (ok : Bool) (r : Int),
       t ≠ CLOCK_TIME_NONE → r ≠ 0 →
       receive_data vb (some ab)
           (some ⟨some ⟨some t, true, ⟨d⟩, false⟩, some ⟨ok, r⟩⟩) "audio" =
         .ok ⟨none, [],
           vb, some (set_data ab ⟨d, (1 : Rat) / (r : Rat),
             some (Int.fdiv ((t : Int) * r) 1000000000), none⟩)⟩) ∧
    (∀ (vb : Option (PipelineBridge Packet)) (ab : PipelineBridge Packet)
       (d : List Nat) (t : Nat) (ok : Bool), t ≠ CLOCK_TIME_NONE →
       receive_data vb (some ab)
           (some ⟨some ⟨some t, true, ⟨d⟩, false⟩, some ⟨ok, 0⟩⟩) "audio" =
         .ok ⟨none,
           [(LogLevel.warning,
             "Could not get clock-rate from caps, falling back to 48000")],
           vb, some (set_data ab ⟨d, (1 : Rat) / ((48000 : Int) : Rat),
             some (Int.fdiv ((t : Int) * 48000) 1000000000), none⟩)⟩) ∧
    (∀ (vb : PipelineBridge Packet) (ab : Option (PipelineBridge Packet))
       (d : List Nat) (p : Option Nat) (caps : GstCaps),
       pts_defined p = false →
       receive_data (some vb) ab
           (some ⟨some ⟨p, true, ⟨d⟩, false⟩, some caps⟩) "video" =
         .ok ⟨none, [],
           some (set_data vb ⟨d, (1 : Rat) / (RTP_VIDEO_CLOCK_RATE : Rat),
             none, none⟩), ab⟩) ∧
    (∀ (vb : Option (PipelineBridge Packet)) (ab : PipelineBridge Packet)
       (d : List Nat) (p : Option Nat) (ok : Bool) (r : Int),
       pts_defined p = false → r ≠ 0 →
       receive_data vb (some ab)
           (some ⟨some ⟨p, true, ⟨d⟩, false⟩, some ⟨ok, r⟩⟩) "audio" =
         .ok ⟨none, [],
           vb, some (set_data ab ⟨d, (1 : Rat) / (r : Rat), none, none⟩)⟩) := by
  refine ⟨?_, ?_, ?_, ?_, ?_⟩
  · intro vb ab d t caps ht
    simp [receive_data, build_video_packet, pts_defined, ht]
  · intro vb ab d t ok r ht hr
    simp [receive_data, build_audio_packet, pts_defined, ht, hr]
  · intro vb ab d t ok ht
    simp [receive_data, build_audio_packet, pts_defined, ht]
  · intro vb ab d p caps hp
    simp [receive_data, build_video_packet, hp]
  · intro vb ab d p ok r hp hr
    simp [receive_data, build_audio_packet, hp, hr]

/-- C2 witness: a video sample at `1,000,000,000` ns produces
`pts = dts = 90000`, and an audio sample at `500,000,000` ns with
declared rate 44100 produces `pts = 22050` (and an absent rate falls
back to 48000 with a warning). -/
theorem receive_data_timestamps_witness :
    receive_data (some ⟨[]⟩) none
        (some ⟨some ⟨some 1000000000, true, ⟨[7]⟩, false⟩, some ⟨true, 0⟩⟩)
        "video" =
      .ok ⟨none, [],
        some ⟨[⟨[7], (1 : Rat) / (RTP_VIDEO_CLOCK_RATE : Rat),
          some 90000, some 90000⟩]⟩, none⟩ ∧
    receive_data none (some ⟨[]⟩)
        (some ⟨some ⟨some 500000000, true, ⟨[2]⟩, false⟩, some ⟨true, 44100⟩⟩)
        "audio" =
      .ok ⟨none, [],
        none, some ⟨[⟨[2], (1 : Rat) / ((44100 : Int) : Rat),
          some 22050, none⟩]⟩⟩ := by
  have h := receive_data_timestamps
  constructor
  · have h1 := h.1 ⟨[]⟩ none [7] 1000000000 ⟨true, 0⟩ (by decide)
    rw [h1]
    rfl
  · have h2 := h.2.1 none ⟨[]⟩ [2] 500000000 true 44100 (by decide) (by decide)
    rw [h2]
    rfl

/-! ## C6 -/

/-- C6 counterexample: an audio sample at `500,000,000` ns with declared
rate 44100 yields a packet with `pts = some 22050` but `dts = none`: the
audio path never assigns `dts`, so the claimed `dts == pts` invariant
fails for audio packets that carry a timestamp. -/
theorem audio_packet_dts_counterexample :
    receive_data none (some ⟨[]⟩)
        (some ⟨some ⟨some 500000000, true, ⟨[1]⟩, false⟩, some ⟨true, 44100⟩⟩)
        "audio" =
      .ok ⟨none, [],
        none, some ⟨[⟨[1], (1 : Rat) / ((44100 : Int) : Rat),
          some 22050, none⟩]⟩⟩ ∧
    Packet.dts ⟨[1], (1 : Rat) / ((44100 : Int) : Rat), some 22050, none⟩ ≠
      Packet.pts ⟨[1], (1 : Rat) / ((44100 : Int) : Rat), some 22050, none⟩ := by
  constructor
  · rfl
  · decide

/-- C6 (amended): every video packet built by sample ingestion has
`dts = pts` (both unset, or both the converted timestamp), while audio
packets always leave `dts` unassigned. -/
theorem packet_dts_spec :
    (∀ (buf : GstBuffer) (p : Packet),
       build_video_packet buf = .ok p → p.dts = p.pts) ∧
    (∀ (buf : GstBuffer) (caps : GstCaps) (p : Packet) (lg : List LogEntry),
       build_audio_packet buf caps = .ok (p, lg) → p.dts = none) := by
  constructor
  · intro buf p h
    unfold build_video_packet at h
    by_cases hr : buf.packet_raises
    · simp [hr] at h
    · by_cases hp : pts_defined buf.pts
      · simp [hr, hp] at h
        rw [← h]
      · simp [hr, hp] at h
        rw [← h]
  · intro buf caps p lg h
    unfold build_audio_packet at h
    by_cases hr : buf.packet_raises
    · simp [hr] at h
    · by_cases hp : pts_defined buf.pts
      · simp [hr, hp] at h
        rw [← h.1]
      · simp [hr, hp] at h
        rw [← h.1]

/-- C6 (amended) witness: a concrete video packet built from a sample at
one second has `dts = pts`, and a concrete audio packet has `dts`
unassigned. -/
theorem packet_dts_spec_witness :
    Packet.dts ⟨[5], (1 : Rat) / (RTP_VIDEO_CLOCK_RATE : Rat),
        some 90000, some 90000⟩ =
      Packet.pts ⟨[5], (1 : Rat) / (RTP_VIDEO_CLOCK_RATE : Rat),
        some 90000, some 90000⟩ ∧
    Packet.dts ⟨[5], (1 : Rat) / ((48000 : Int) : Rat), some 48000, none⟩ =
      none := by
  constructor
  · exact packet_dts_spec.1 ⟨some 1000000000, true, ⟨[5]⟩, false⟩ _ rfl
  · exact packet_dts_spec.2 ⟨some 1000000000, true, ⟨[5]⟩, false⟩ ⟨false, 0⟩ _ _ rfl

/-! ## C3 -/

/-- C3 counterexample: `set_sdp("answer", "")` with an empty (but
present) sdp string succeeds and installs the empty description — the
code only rejects an absent (`None`) sdp, so "fails whenever the sdp is
empty" does not hold for the empty string. -/
theorem set_sdp_empty_string_counterexample :
    set_sdp (some ⟨"connected", none⟩) "answer" (some "") =
      .ok ⟨"connected", some ⟨"", "answer"⟩⟩ := rfl

/-- C3 (amended): `set_sdp` raises an `RTCAppError` exactly when the type
is not `"answer"` or the sdp is absent (`None`); otherwise — including
for an empty sdp string — it succeeds and installs the remote
description on the peer connection. -/
theorem set_sdp_spec (p : PeerConnection) (sdp_type : String)
    (sdp : Option String) :
    (sdp_type ≠ "answer" ∨ sdp = none →
       ∃ m, set_sdp (some p) sdp_type sdp = .error (.rtcAppError m)) ∧
    (∀ s, sdp_type = "answer" → sdp = some s →
       set_sdp (some p) sdp_type sdp =
         .ok { p with remoteDescription := some ⟨s, sdp_type⟩ }) ∧
    ((∃ q, set_sdp (some p) sdp_type sdp = .ok q) ↔
       (sdp_type = "answer" ∧ sdp ≠ none)) := by
  refine ⟨?_, ?_, ?_⟩
  · rintro (ht | hs)
    · exact ⟨"ERROR: sdp type was not answer", by simp [set_sdp, ht]⟩
    · subst hs
      by_cases ht : sdp_type = "answer"
      · subst ht; exact ⟨"ERROR: sdp must not be None", rfl⟩
      · exact ⟨"ERROR: sdp type was not answer", by simp [set_sdp, ht]⟩
  · intro s ht hs
    subst ht; subst hs
    rfl
  · constructor
    · rintro ⟨q, hq⟩
      by_cases ht : sdp_type = "answer"
      · subst ht
        cases sdp with
        | none => simp [set_sdp] at hq
        | some s => simp
      · simp [set_sdp, ht] at hq
    · rintro ⟨ht, hs⟩
      subst ht
      cases sdp with
      | none => exact absurd rfl hs
      | some s => exact ⟨_, rfl⟩

/-- C3 witness: `("offer", "v=0")` raises, `("answer", None)` raises,
and `("answer", "v=0")` succeeds and installs the description. -/
theorem set_sdp_spec_witness :
    (∃ m, set_sdp (some ⟨"new", none⟩) "offer" (some "v=0") =
       .error (.rtcAppError m)) ∧
    (∃ m, set_sdp (some ⟨"new", none⟩) "answer" none =
       .error (.rtcAppError m)) ∧
    set_sdp (some ⟨"new", none⟩) "answer" (some "v=0") =
      .ok ⟨"new", some ⟨"v=0", "answer"⟩⟩ :=
  ⟨(set_sdp_spec ⟨"new", none⟩ "offer" (some "v=0")).1 (Or.inl (by decide)),
   (set_sdp_spec ⟨"new", none⟩ "answer" none).1 (Or.inr rfl),
   (set_sdp_spec ⟨"new", none⟩ "answer" (some "v=0")).2.1 "v=0" rfl rfl⟩

/-! ## C4 -/

/-- C4: `force_codec` succeeds (given a transceiver owning the sender)
exactly when the capability list holds both an exact MIME match and a
case-insensitive `<kind>/rtx` match; on success the owning transceiver's
preference list becomes exactly `[primary, rtx]` in that order, where
`primary` is the first exact match and `rtx` the first retransmission
match; when either is absent the call raises a `ValueError`. -/
theorem force_codec_spec (caps : List RTCRtpCodecCapability)
    (ts : List RTCRtpTransceiver) (sid : Nat) (kind mime : String)
    (hts : ∃ t ∈ ts, t.sender = sid) :
    ((∃ ts2, force_codec caps ts sid kind mime = .ok ts2) ↔
       ((∃ c ∈ caps, c.mimeType = mime) ∧
        (∃ c ∈ caps, py_lower c.mimeType = kind ++ "/rtx"))) ∧
    (∀ primary rtx,
       caps.find? (fun c => c.mimeType == mime) = some primary →
       caps.find? (fun c => py_lower c.mimeType == kind ++ "/rtx") = some rtx →
       force_codec caps ts sid kind mime =
         .ok (set_first_prefs sid [primary, rtx] ts) ∧
       primary.mimeType = mime ∧ py_lower rtx.mimeType = kind ++ "/rtx" ∧
       ∃ t ∈ set_first_prefs sid [primary, rtx] ts,
         t.sender = sid ∧ t.codecPreferences = some [primary, rtx]) ∧
    (¬ ((∃ c ∈ caps, c.mimeType = mime) ∧
        (∃ c ∈ caps, py_lower c.mimeType = kind ++ "/rtx")) →
       ∃ m, force_codec caps ts sid kind mime = .error (.valueError m)) := by
  have hfind : ts.find? (fun t => t.sender == sid) ≠ none := by
    rw [Ne, List.find?_eq_none]
    push_neg
    obtain ⟨t, htmem, hteq⟩ := hts
    exact ⟨t, htmem, by simp [hteq]⟩
  refine ⟨?_, ?_, ?_⟩
  · constructor
    · rintro ⟨ts2, h⟩
      unfold force_codec at h
      cases h1 : caps.find? (fun c => c.mimeType == mime) with
      | none => rw [h1] at h; exact absurd h (by simp)
      | some primary =>
          cases h2 : caps.find? (fun c => py_lower c.mimeType == kind ++ "/rtx") with
          | none => rw [h1, h2] at h; exact absurd h (by simp)
          | some rtx =>
              have hp := List.find?_some h1
              have hq := List.find?_some h2
              have hpm := List.mem_of_find?_eq_some h1
              have hqm := List.mem_of_find?_eq_some h2
              exact ⟨⟨primary, hpm, by simpa using hp⟩,
                     ⟨rtx, hqm, by simpa using hq⟩⟩
    · rintro ⟨⟨c1, hc1, he1⟩, ⟨c2, hc2, he2⟩⟩
      unfold force_codec
      cases h1 : caps.find? (fun c => c.mimeType == mime) with
      | none =>
          rw [List.find?_eq_none] at h1
          exact absurd (by simpa using he1) (h1 c1 hc1)
      | some primary =>
          cases h2 : caps.find? (fun c => py_lower c.mimeType == kind ++ "/rtx") with
          | none =>
              rw [List.find?_eq_none] at h2
              exact absurd (by simpa using he2) (h2 c2 hc2)
          | some rtx =>
              cases h3 : ts.find? (fun t => t.sender == sid) with
              | none => exact absurd h3 hfind
              | some t0 => exact ⟨_, rfl⟩
  · intro primary rtx h1 h2
    have hok : force_codec caps ts sid kind mime =
        .ok (set_first_prefs sid [primary, rtx] ts) := by
      unfold force_codec
      rw [h1, h2]
      cases h3 : ts.find? (fun t => t.sender == sid) with
      | none => exact absurd h3 hfind
      | some t0 => rfl
    refine ⟨hok, by simpa using List.find?_some h1,
            by simpa using List.find?_some h2, ?_⟩
    clear hok hfind
    obtain ⟨t, htmem, hteq⟩ := hts
    clear h1 h2
    induction ts with
    | nil => cases htmem
    | cons u us ih =>
        by_cases hu : u.sender = sid
        · refine ⟨{ u with codecPreferences := some [primary, rtx] }, ?_, hu, rfl⟩
          simp [set_first_prefs, hu]
        · rcases List.mem_cons.mp htmem with h | h
          · subst h; exact absurd hteq hu
          · obtain ⟨w, hw1, hw2, hw3⟩ := ih h
            exact ⟨w, by simp [set_first_prefs, hu, hw1], hw2, hw3⟩
  · intro hnot
    unfold force_codec
    cases h1 : caps.find? (fun c => c.mimeType == mime) with
    | none => exact ⟨_, rfl⟩
    | some primary =>
        cases h2 : caps.find? (fun c => py_lower c.mimeType == kind ++ "/rtx") with
        | none => exact ⟨_, rfl⟩
        | some rtx =>
            exact absurd ⟨⟨primary, List.mem_of_find?_eq_some h1,
                by simpa using List.find?_some h1⟩,
              ⟨rtx, List.mem_of_find?_eq_some h2,
                by simpa using List.find?_some h2⟩⟩ hnot

/-- C4 witness: with capabilities `[video/H264, video/rtx]`, forcing
`video/H264` pins the owning transceiver's preference list to exactly
`[H264, rtx]`, and with the rtx entry missing it raises a `ValueError`. -/
theorem force_codec_spec_witness :
    force_codec [⟨"video/H264"⟩, ⟨"video/rtx"⟩] [⟨0, none⟩] 0 "video" "video/H264" =
      .ok [⟨0, some [⟨"video/H264"⟩, ⟨"video/rtx"⟩]⟩] ∧
    (∃ m, force_codec [⟨"video/H264"⟩] [⟨0, none⟩] 0 "video" "video/H264" =
      .error (.valueError m)) := by
  have hts : ∃ t ∈ ([⟨0, none⟩] : List RTCRtpTransceiver), t.sender = 0 :=
    ⟨⟨0, none⟩, by simp, rfl⟩
  constructor
  · have h := ((force_codec_spec [⟨"video/H264"⟩, ⟨"video/rtx"⟩] [⟨0, none⟩]
      0 "video" "video/H264" hts).2.1 ⟨"video/H264"⟩ ⟨"video/rtx"⟩
      (by decide) (by decide)).1
    rw [h]
    rfl
  · exact (force_codec_spec [⟨"video/H264"⟩] [⟨0, none⟩]
      0 "video" "video/H264" hts).2.2 (by decide)

/-! ## C5 -/

/-- Length of a base64 encoding: four output characters per started
three-byte group. -/
theorem b64encode_length : ∀ data : List Nat,
    (b64encode data).length = 4 * ((data.length + 2) / 3)
  | [] => by simp [b64encode]
  | [_] => by simp [b64encode]
  | [_, _] => by simp [b64encode]
  | _ :: _ :: _ :: rest => by
      have ih := b64encode_length rest
      simp only [b64encode, List.length_cons, ih]
      omega

/-- `__send_data_channel_message` on a ready channel sends exactly the
one envelope. -/
theorem send_msg_ready (app : RTCApp) (mt : String) (d : JVal)
    (h : is_data_channel_ready app = .ok true) :
    send_data_channel_message app mt d = .ok ⟨[⟨mt, d⟩], []⟩ := by
  simp [send_data_channel_message, h, Bind.bind, Except.bind, Pure.pure, Except.pure]

/-- `__send_data_channel_message` on an unready channel sends nothing
and logs the debug diagnostic. -/
theorem send_msg_not_ready (app : RTCApp) (mt : String) (d : JVal)
    (h : is_data_channel_ready app = .ok false) :
    send_data_channel_message app mt d =
      .ok ⟨[], [(LogLevel.debug, skip_msg mt)]⟩ := by
  simp [send_data_channel_message, h, Bind.bind, Except.bind, Pure.pure, Except.pure]

/-- C5: with the channel ready, clipboard data whose base64 encoding is
within the 65400-character restriction is sent as exactly one
`clipboard` envelope carrying the full base64 content; an encoding
exceeding the restriction is dropped entirely (no message) with a
warning logged. -/
theorem send_clipboard_spec (app : RTCApp) (data : List Nat)
    (hready : is_data_channel_ready app = .ok true) :
    ((b64encode data).length ≤ CLIPBOARD_RESTRICTION →
       send_clipboard_data app data =
         .ok ⟨[⟨"clipboard", .jObj [("content", .jStr ⟨b64encode data⟩)]⟩],
              []⟩) ∧
    (CLIPBOARD_RESTRICTION < (b64encode data).length →
       send_clipboard_data app data =
         .ok ⟨[], [(LogLevel.warning, clipboard_warn)]⟩) := by
  constructor
  · intro hle
    rw [send_clipboard_data, if_pos hle]
    exact send_msg_ready app "clipboard" _ hready
  · intro hgt
    rw [send_clipboard_data, if_neg (by omega)]

/-- C5 witness: on a ready session, the two bytes `104, 105` (base64
`aGk=`, length 4 ≤ 65400) are sent as one clipboard envelope, while
49051 zero bytes (base64 length 65404 > 65400) are dropped with a
warning and no message. -/
theorem send_clipboard_spec_witness :
    send_clipboard_data ⟨some ⟨"connected", none⟩, some (), none, none, none, none⟩
        [104, 105] =
      .ok ⟨[⟨"clipboard", .jObj [("content", .jStr ⟨b64encode [104, 105]⟩)]⟩],
           []⟩ ∧
    send_clipboard_data ⟨some ⟨"connected", none⟩, some (), none, none, none, none⟩
        (List.replicate 49051 0) =
      .ok ⟨[], [(LogLevel.warning, clipboard_warn)]⟩ := by
  have hready : is_data_channel_ready
      ⟨some ⟨"connected", none⟩, some (), none, none, none, none⟩ = .ok true := by
    rfl
  have hlen : (b64encode (List.replicate 49051 0)).length = 65404 := by
    rw [b64encode_length, List.length_replicate]
  constructor
  · exact (send_clipboard_spec _ [104, 105] hready).1 (by decide)
  · exact (send_clipboard_spec _ (List.replicate 49051 0) hready).2
      (by rw [hlen]; decide)

/-! ## C7 -/

/-- C7 counterexample: a first `stop_pipeline` on a live session resets
every session-owned reference to absent, but a second call — with the
peer connection reference already absent — raises an `AttributeError`
(`None.close()`), so `stop_pipeline` is not idempotent as claimed. -/
theorem stop_pipeline_counterexample :
    stop_pipeline ⟨some ⟨"connected", none⟩, some (), some (),
        some ⟨[]⟩, some ⟨[]⟩, none⟩ =
      .ok ⟨none, none, none, none, none, none⟩ ∧
    stop_pipeline ⟨none, none, none, none, none, none⟩ =
      .error .attributeError :=
  ⟨rfl, rfl⟩

/-- C7 (amended): when the peer connection is present, `stop_pipeline`
closes it and resets the peer connection, both channels and both bridges
to absent; when the peer connection is already absent (as after a
previous stop), the call raises an `AttributeError` instead of being a
safe no-op. -/
theorem stop_pipeline_spec (app : RTCApp) :
    (app.peer_connection.isSome →
       stop_pipeline app =
         .ok { app with
                 peer_connection := none
                 data_channel := none
                 aux_data_channel := none
                 video_pipeline_bridge := none
                 audio_pipeline_bridge := none }) ∧
    (app.peer_connection = none →
       stop_pipeline app = .error .attributeError) := by
  constructor
  · intro h
    obtain ⟨pc, hpc⟩ := Option.isSome_iff_exists.mp h
    unfold stop_pipeline
    rw [hpc]
  · intro h
    unfold stop_pipeline
    rw [h]

/-- C7 (amended) witness: stopping a fresh live session yields the
all-absent state, and stopping an already-cleared session raises. -/
theorem stop_pipeline_spec_witness :
    stop_pipeline ⟨some ⟨"new", none⟩, some (), none, none, some ⟨[]⟩, none⟩ =
      .ok ⟨none, none, none, none, none, none⟩ ∧
    stop_pipeline ⟨none, none, some (), none, none, none⟩ =
      .error .attributeError :=
  ⟨(stop_pipeline_spec ⟨some ⟨"new", none⟩, some (), none, none, some ⟨[]⟩, none⟩).1
     rfl,
   (stop_pipeline_spec ⟨none, none, some (), none, none, none⟩).2 rfl⟩

/-! ## C8 helpers -/

/-- On a well-formed session state the readiness check never raises. -/
theorem is_ready_total (app : RTCApp) (hwf : wf_channel app) :
    ∃ b, is_data_channel_ready app = .ok b := by
  obtain ⟨pc, dc, aux, abr, vbr, lc⟩ := app
  cases dc with
  | none => exact ⟨false, rfl⟩
  | some u =>
      cases pc with
      | none => exact absurd (hwf rfl) (by simp)
      | some p => exact ⟨p.connectionState == "connected", rfl⟩

/-- On a well-formed session state, readiness holds exactly when the
channel exists and the connection state is "connected". -/
theorem is_ready_iff (app : RTCApp) (hwf : wf_channel app) :
    is_data_channel_ready app = .ok true ↔
      (app.data_channel.isSome ∧
       ∃ pc, app.peer_connection = some pc ∧
         pc.connectionState = "connected") := by
  obtain ⟨pc, dc, aux, abr, vbr, lc⟩ := app
  cases dc with
  | none => simp [is_data_channel_ready]
  | some u =>
      cases pc with
      | none => exact absurd (hwf rfl) (by simp)
      | some p =>
          simp [is_data_channel_ready]

/-- Recording the last sent cursor leaves the readiness check
unchanged. -/
theorem is_ready_set_cursor (app : RTCApp) (d : JVal) :
    is_data_channel_ready { app with last_cursor_sent := some d } =
      is_data_channel_ready app := rfl

/-! ## C8 -/

/-- C8 counterexample: on a ready session (channel present, connection
"connected"), `send_clipboard_data` with an oversized payload emits no
envelope at all — so "every outgoing message method sends exactly one
envelope when the channel is ready" fails for the clipboard method. -/
theorem ready_clipboard_dropped_counterexample :
    is_data_channel_ready
        ⟨some ⟨"connected", none⟩, some (), none, none, none, none⟩ =
      .ok true ∧
    send_clipboard_data
        ⟨some ⟨"connected", none⟩, some (), none, none, none, none⟩
        (List.replicate 49052 0) =
      .ok ⟨[], [(LogLevel.warning, clipboard_warn)]⟩ := by
  refine ⟨rfl, ?_⟩
  rw [send_clipboard_data,
    if_neg (by rw [b64encode_length, List.length_replicate]; decide)]

/-- C8 (amended): on a well-formed session state, the readiness check is
true iff the control channel exists and the connection state is
"connected" (it never raises, and it is false on the state left by
`stop_pipeline`); when ready, every outgoing message method sends
exactly one `{type, data}` envelope — except `send_clipboard_data`,
which does so only while its base64 payload is within the 65400
restriction — and when not ready every method sends nothing, raises no
error, and logs the debug diagnostic. -/
theorem control_channel_spec (app : RTCApp) (hwf : wf_channel app) :
    (is_data_channel_ready app = .ok true ↔
       (app.data_channel.isSome ∧
        ∃ pc, app.peer_connection = some pc ∧
          pc.connectionState = "connected")) ∧
    (∃ b, is_data_channel_ready app = .ok b) ∧
    (∀ app2, stop_pipeline app = .ok app2 →
       is_data_channel_ready app2 = .ok false) ∧
    (is_data_channel_ready app = .ok true →
       (∀ mt d, send_media_data_over_channel app mt d =
          .ok ⟨[⟨mt, d⟩], []⟩) ∧
       (∀ l m u, send_gpu_stats app l m u =
          .ok ⟨[⟨"gpu_stats", .jObj [("load", .jNum l),
            ("memory_total", .jNum m), ("memory_used", .jNum u)]⟩], []⟩) ∧
       (∃ lg, send_reload_window app =
          .ok ⟨[⟨"system", .jObj [("action", .jStr "reload")]⟩], lg⟩) ∧
       (∀ f : Int, ∃ lg, send_framerate app f =
          .ok ⟨[⟨"system", .jObj [("action",
            .jStr ("videoFramerate," ++ toString f))]⟩], lg⟩) ∧
       (∀ b : Int, ∃ lg, send_video_bitrate app b =
          .ok ⟨[⟨"system", .jObj [("action",
            .jStr ("video_bitrate," ++ toString b))]⟩], lg⟩) ∧
       (∀ b : Int, ∃ lg, send_audio_bitrate app b =
          .ok ⟨[⟨"system", .jObj [("action",
            .jStr ("audio_bitrate," ++ toString b))]⟩], lg⟩) ∧
       (∀ e, ∃ lg, send_encoder app e =
          .ok ⟨[⟨"system", .jObj [("action", .jStr ("encoder," ++ e))]⟩], lg⟩) ∧
       (∀ b, ∃ lg, send_resize_enabled app b =
          .ok ⟨[⟨"system", .jObj [("action",
            .jStr ("resize," ++ pystr_bool b))]⟩], lg⟩) ∧
       (∀ res, ∃ lg, send_remote_resolution app res =
          .ok ⟨[⟨"system", .jObj [("action",
            .jStr ("resolution," ++ res))]⟩], lg⟩) ∧
       (∀ t, send_ping app t =
          .ok ⟨[⟨"ping", .jObj [("start_time", .jNum (fmt3 t))]⟩], []⟩) ∧
       (∀ l, send_latency_time app l =
          .ok ⟨[⟨"latency_measurement", .jObj [("latency_ms", .jNum l)]⟩],
               []⟩) ∧
       (∀ c m u, send_system_stats app c m u =
          .ok ⟨[⟨"system_stats", .jObj [("cpu_percent", .jNum c),
            ("mem_total", .jNum m), ("mem_used", .jNum u)]⟩], []⟩) ∧
       (∀ data, (b64encode data).length ≤ CLIPBOARD_RESTRICTION →
          send_clipboard_data app data =
            .ok ⟨[⟨"clipboard", .jObj [("content", .jStr ⟨b64encode data⟩)]⟩],
                 []⟩) ∧
       (∀ d, send_cursor_data app d =
          .ok ({ app with last_cursor_sent := some d },
               ⟨[⟨"cursor", d⟩], []⟩))) ∧
    (is_data_channel_ready app = .ok false →
       (∀ mt d, send_media_data_over_channel app mt d =
          .ok ⟨[], [(LogLevel.debug, skip_msg mt)]⟩) ∧
       (∀ l m u, send_gpu_stats app l m u =
          .ok ⟨[], [(LogLevel.debug, skip_msg "gpu_stats")]⟩) ∧
       (∃ lg, send_reload_window app = .ok ⟨[], lg⟩ ∧
          (LogLevel.debug, skip_msg "system") ∈ lg) ∧
       (∀ f : Int, ∃ lg, send_framerate app f = .ok ⟨[], lg⟩ ∧
          (LogLevel.debug, skip_msg "system") ∈ lg) ∧
       (∀ b : Int, ∃ lg, send_video_bitrate app b = .ok ⟨[], lg⟩ ∧
          (LogLevel.debug, skip_msg "system") ∈ lg) ∧
       (∀ b : Int, ∃ lg, send_audio_bitrate app b = .ok ⟨[], lg⟩ ∧
          (LogLevel.debug, skip_msg "system") ∈ lg) ∧
       (∀ e, ∃ lg, send_encoder app e = .ok ⟨[], lg⟩ ∧
          (LogLevel.debug, skip_msg "system") ∈ lg) ∧
       (∀ b, ∃ lg, send_resize_enabled app b = .ok ⟨[], lg⟩ ∧
          (LogLevel.debug, skip_msg "system") ∈ lg) ∧
       (∀ res, ∃ lg, send_remote_resolution app res = .ok ⟨[], lg⟩ ∧
          (LogLevel.debug, skip_msg "system") ∈ lg) ∧
       (∀ t, send_ping app t =
          .ok ⟨[], [(LogLevel.debug, skip_msg "ping")]⟩) ∧
       (∀ l, send_latency_time app l =
          .ok ⟨[], [(LogLevel.debug, skip_msg "latency_measurement")]⟩) ∧
       (∀ c m u, send_system_stats app c m u =
          .ok ⟨[], [(LogLevel.debug, skip_msg "system_stats")]⟩) ∧
       (∀ data, (b64encode data).length ≤ CLIPBOARD_RESTRICTION →
          send_clipboard_data app data =
            .ok ⟨[], [(LogLevel.debug, skip_msg "clipboard")]⟩) ∧
       (∀ d, send_cursor_data app d =
          .ok ({ app with last_cursor_sent := some d },
               ⟨[], [(LogLevel.debug, skip_msg "cursor")]⟩))) := by
  refine ⟨is_ready_iff app hwf, is_ready_total app hwf, ?_, ?_, ?_⟩
  · intro app2 h2
    rcases hpc : app.peer_connection with _ | pc
    · rw [stop_pipeline, hpc] at h2; cases h2
    · rw [stop_pipeline, hpc] at h2
      cases h2
      rfl
  · intro hr
    have hsend : ∀ mt d, send_data_channel_message app mt d =
        .ok ⟨[⟨mt, d⟩], []⟩ := fun mt d => send_msg_ready app mt d hr
    refine ⟨fun mt d => hsend mt d, fun l m u => hsend _ _, ?_, ?_, ?_, ?_, ?_,
      ?_, ?_, fun t => hsend _ _, fun l => hsend _ _, fun c m u => hsend _ _,
      ?_, ?_⟩
    · exact ⟨[(LogLevel.info, "sending window reload")],
        by simp [send_reload_window, hsend, with_logs, Bind.bind, Except.bind,
          Pure.pure, Except.pure]⟩
    · exact fun f => ⟨[(LogLevel.info, "sending framerate")],
        by simp [send_framerate, hsend, with_logs, Bind.bind, Except.bind,
          Pure.pure, Except.pure]⟩
    · exact fun b => ⟨[(LogLevel.info, "sending video bitrate")],
        by simp [send_video_bitrate, hsend, with_logs, Bind.bind, Except.bind,
          Pure.pure, Except.pure]⟩
    · exact fun b => ⟨[(LogLevel.info, "sending audio bitrate")],
        by simp [send_audio_bitrate, hsend, with_logs, Bind.bind, Except.bind,
          Pure.pure, Except.pure]⟩
    · exact fun e => ⟨[(LogLevel.info, "sending encoder: " ++ e)],
        by simp [send_encoder, hsend, with_logs, Bind.bind, Except.bind,
          Pure.pure, Except.pure]⟩
    · exact fun b => ⟨[(LogLevel.info, "sending resize enabled state")],
        by simp [send_resize_enabled, hsend, with_logs, Bind.bind, Except.bind,
          Pure.pure, Except.pure]⟩
    · exact fun res => ⟨[(LogLevel.info, "sending remote resolution of: " ++ res)],
        by simp [send_remote_resolution, hsend, with_logs, Bind.bind,
          Except.bind, Pure.pure, Except.pure]⟩
    · intro data hle
      rw [send_clipboard_data, if_pos hle]
      exact hsend _ _
    · intro d
      have h2 : is_data_channel_ready { app with last_cursor_sent := some d } =
          .ok true := by rw [is_ready_set_cursor]; exact hr
      simp [send_cursor_data, send_msg_ready _ _ _ h2, Bind.bind, Except.bind,
        Pure.pure, Except.pure]
  · intro hr
    have hsend : ∀ mt d, send_data_channel_message app mt d =
        .ok ⟨[], [(LogLevel.debug, skip_msg mt)]⟩ :=
      fun mt d => send_msg_not_ready app mt d hr
    refine ⟨fun mt d => hsend mt d, fun l m u => hsend _ _, ?_, ?_, ?_, ?_, ?_,
      ?_, ?_, fun t => hsend _ _, fun l => hsend _ _, fun c m u => hsend _ _,
      ?_, ?_⟩
    · exact ⟨[(LogLevel.info, "sending window reload"),
        (LogLevel.debug, skip_msg "system")],
        by simp [send_reload_window, hsend, with_logs, Bind.bind, Except.bind,
          Pure.pure, Except.pure], by simp⟩
    · exact fun f => ⟨[(LogLevel.info, "sending framerate"),
        (LogLevel.debug, skip_msg "system")],
        by simp [send_framerate, hsend, with_logs, Bind.bind, Except.bind,
          Pure.pure, Except.pure], by simp⟩
    · exact fun b => ⟨[(LogLevel.info, "sending video bitrate"),
        (LogLevel.debug, skip_msg "system")],
        by simp [send_video_bitrate, hsend, with_logs, Bind.bind, Except.bind,
          Pure.pure, Except.pure], by simp⟩
    · exact fun b => ⟨[(LogLevel.info, "sending audio bitrate"),
        (LogLevel.debug, skip_msg "system")],
        by simp [send_audio_bitrate, hsend, with_logs, Bind.bind, Except.bind,
          Pure.pure, Except.pure], by simp⟩
    · exact fun e => ⟨[(LogLevel.info, "sending encoder: " ++ e),
        (LogLevel.debug, skip_msg "system")],
        by simp [send_encoder, hsend, with_logs, Bind.bind, Except.bind,
          Pure.pure, Except.pure], by simp⟩
    · exact fun b => ⟨[(LogLevel.info, "sending resize enabled state"),
        (LogLevel.debug, skip_msg "system")],
        by simp [send_resize_enabled, hsend, with_logs, Bind.bind, Except.bind,
          Pure.pure, Except.pure], by simp⟩
    · exact fun res => ⟨[(LogLevel.info, "sending remote resolution of: " ++ res),
        (LogLevel.debug, skip_msg "system")],
        by simp [send_remote_resolution, hsend, with_logs, Bind.bind,
          Except.bind, Pure.pure, Except.pure], by simp⟩
    · intro data hle
      rw [send_clipboard_data, if_pos hle]
      exact hsend _ _
    · intro d
      have h2 : is_data_channel_ready { app with last_cursor_sent := some d } =
          .ok false := by rw [is_ready_set_cursor]; exact hr
      simp [send_cursor_data, send_msg_not_ready _ _ _ h2, Bind.bind,
        Except.bind, Pure.pure, Except.pure]

/-- C8 (amended) witness: a ready session sends one `gpu_stats`
envelope, and an unready (all-absent) session drops a
`latency_measurement` message as a no-op with the debug diagnostic. -/
theorem control_channel_spec_witness :
    is_data_channel_ready
        ⟨some ⟨"connected", none⟩, some (), none, none, none, none⟩ =
      .ok true ∧
    send_gpu_stats ⟨some ⟨"connected", none⟩, some (), none, none, none, none⟩
        1 2 3 =
      .ok ⟨[⟨"gpu_stats", .jObj [("load", .jNum 1), ("memory_total", .jNum 2),
        ("memory_used", .jNum 3)]⟩], []⟩ ∧
    send_latency_time ⟨none, none, none, none, none, none⟩ 5 =
      .ok ⟨[], [(LogLevel.debug, skip_msg "latency_measurement")]⟩ := by
  have hwf1 : wf_channel
      ⟨some ⟨"connected", none⟩, some (), none, none, none, none⟩ :=
    fun _ => rfl
  have hwf2 : wf_channel ⟨none, none, none, none, none, none⟩ :=
    fun h => by cases h
  have h1 := control_channel_spec _ hwf1
  have h2 := control_channel_spec _ hwf2
  have hr1 : is_data_channel_ready
      ⟨some ⟨"connected", none⟩, some (), none, none, none, none⟩ =
      .ok true := rfl
  have hr2 : is_data_channel_ready ⟨none, none, none, none, none, none⟩ =
      .ok false := rfl
  exact ⟨hr1, (h1.2.2.2.1 hr1).2.1 1 2 3, (h2.2.2.2.2 hr2).2.2.2.2.2.2.2.2.2.2.1 5⟩

/-! ## C9 -/

/-- C9 counterexample: a sample whose buffer fails to map makes
`receive_data` return `Gst.FlowReturn.ERROR` — the error signal that
stops the capture loop — and log nothing, rather than logging and
dropping the sample with a continue signal as the claim states. -/
theorem receive_data_map_failure_counterexample :
    receive_data (some ⟨[]⟩) (some ⟨[]⟩)
        (some ⟨some ⟨some 0, false, ⟨[]⟩, false⟩, some ⟨true, 1⟩⟩) "video" =
      .ok ⟨some FlowReturn.ERROR, [], some ⟨[]⟩, some ⟨[]⟩⟩ := rfl

/-- C9 (amended): `receive_data` never raises to its caller.  An absent
sample logs a warning and returns `None`; an absent buffer or caps
descriptor logs a warning and returns the `OK` continue signal; a
conversion failure after a successful mapping is caught, logged at error
level, and the sample dropped with the bridges untouched; but a
buffer-mapping failure returns `FlowReturn.ERROR` with no log entry. -/
theorem receive_data_robust (vb ab : Option (PipelineBridge Packet))
    (sample : Option GstSample) (kind : String) :
    (∃ r, receive_data vb ab sample kind = .ok r) ∧
    (receive_data vb ab none kind =
       .ok ⟨none, [(LogLevel.warning, "sample received is empty")], vb, ab⟩) ∧
    (∀ s, sample = some s → (s.buffer = none ∨ s.caps = none) →
       receive_data vb ab sample kind =
         .ok ⟨some FlowReturn.OK,
              [(LogLevel.warning, "receive_data: buffer or caps is None")],
              vb, ab⟩) ∧
    (∀ s buf caps, sample = some s → s.buffer = some buf →
       s.caps = some caps → buf.map_ok = true → buf.packet_raises = true →
       ∃ m, receive_data vb ab sample kind =
         .ok ⟨none, [(LogLevel.error, m)], vb, ab⟩) ∧
    (∀ s buf caps, sample = some s → s.buffer = some buf →
       s.caps = some caps → buf.map_ok = false →
       receive_data vb ab sample kind =
         .ok ⟨some FlowReturn.ERROR, [], vb, ab⟩) := by
  refine ⟨?_, rfl, ?_, ?_, ?_⟩
  · match sample with
    | none => exact ⟨_, rfl⟩
    | some ⟨none, sc⟩ => exact ⟨_, rfl⟩
    | some ⟨some buf, none⟩ => exact ⟨_, rfl⟩
    | some ⟨some buf, some caps⟩ =>
        cases hm : buf.map_ok
        · simp only [receive_data, hm]
          exact ⟨_, rfl⟩
        · cases hk : kind == "video"
          · rcases hv : build_audio_packet buf caps with m | pr
            · simp only [receive_data, hm, hk, hv]
              exact ⟨_, rfl⟩
            · obtain ⟨pkt, lg⟩ := pr
              simp only [receive_data, hm, hk, hv]
              exact ⟨_, rfl⟩
          · rcases hv : build_video_packet buf with m | pkt
            · simp only [receive_data, hm, hk, hv]
              exact ⟨_, rfl⟩
            · simp only [receive_data, hm, hk, hv]
              exact ⟨_, rfl⟩
  · rintro ⟨sb, sc⟩ rfl (hb | hc)
    · simp only at hb
      subst hb
      rfl
    · simp only at hc
      subst hc
      cases sb <;> rfl
  · rintro ⟨sb, sc⟩ buf caps rfl hb hc hm hraise
    simp only at hb hc
    subst hb; subst hc
    by_cases hk : (kind == "video") = true
    · refine ⟨"error processing video sample", ?_⟩
      simp [receive_data, hm, hk, build_video_packet, hraise]
    · refine ⟨"error processing audio sample", ?_⟩
      simp [receive_data, hm, hk, build_audio_packet, hraise]
  · rintro ⟨sb, sc⟩ buf caps rfl hb hc hm
    simp only at hb hc
    subst hb; subst hc
    simp [receive_data, hm]

/-- C9 (amended) witness: the empty-sample, absent-buffer,
conversion-failure and mapping-failure cases at concrete inputs. -/
theorem receive_data_robust_witness :
    receive_data none none none "video" =
      .ok ⟨none, [(LogLevel.warning, "sample received is empty")],
           none, none⟩ ∧
    receive_data none none (some ⟨none, none⟩) "video" =
      .ok ⟨some FlowReturn.OK,
           [(LogLevel.warning, "receive_data: buffer or caps is None")],
           none, none⟩ ∧
    (∃ m, receive_data none none
        (some ⟨some ⟨none, true, ⟨[]⟩, true⟩, some ⟨true, 1⟩⟩) "video" =
      .ok ⟨none, [(LogLevel.error, m)], none, none⟩) ∧
    receive_data none none
        (some ⟨some ⟨none, false, ⟨[]⟩, false⟩, some ⟨true, 1⟩⟩) "audio" =
      .ok ⟨some FlowReturn.ERROR, [], none, none⟩ := by
  have h := receive_data_robust none none
  exact ⟨(h none "video").2.1,
    (h (some ⟨none, none⟩) "video").2.2.1 ⟨none, none⟩ rfl (Or.inl rfl),
    (h (some ⟨some ⟨none, true, ⟨[]⟩, true⟩, some ⟨true, 1⟩⟩) "video").2.2.2.1
      ⟨some ⟨none, true, ⟨[]⟩, true⟩, some ⟨true, 1⟩⟩
      ⟨none, true, ⟨[]⟩, true⟩ ⟨true, 1⟩ rfl rfl rfl rfl rfl,
    (h (some ⟨some ⟨none, false, ⟨[]⟩, false⟩, some ⟨true, 1⟩⟩) "audio").2.2.2.2
      ⟨some ⟨none, false, ⟨[]⟩, false⟩, some ⟨true, 1⟩⟩
      ⟨none, false, ⟨[]⟩, false⟩ ⟨true, 1⟩ rfl rfl rfl rfl⟩

/-! ## C10 -/

/-- C10: `send_cursor_data` records the given data as `last_cursor_sent`
before the readiness check, so the record is updated even when the
channel is not ready and no cursor message is transmitted. -/
theorem cursor_recorded_spec (app : RTCApp) (data : JVal)
    (hwf : wf_channel app) :
    ∃ r, send_cursor_data app data =
        .ok ({ app with last_cursor_sent := some data }, r) ∧
      (is_data_channel_ready app = .ok false → r.sent = []) := by
  obtain ⟨b, hb⟩ := is_ready_total app hwf
  have h2 : is_data_channel_ready { app with last_cursor_sent := some data } =
      .ok b := by rw [is_ready_set_cursor]; exact hb
  cases b with
  | true =>
      refine ⟨⟨[⟨"cursor", data⟩], []⟩, ?_, ?_⟩
      · simp [send_cursor_data, send_msg_ready _ _ _ h2, Bind.bind,
          Except.bind, Pure.pure, Except.pure]
      · intro hf
        rw [hb] at hf
        cases hf
  | false =>
      refine ⟨⟨[], [(LogLevel.debug, skip_msg "cursor")]⟩, ?_, fun _ => rfl⟩
      simp [send_cursor_data, send_msg_not_ready _ _ _ h2, Bind.bind,
        Except.bind, Pure.pure, Except.pure]

/-- C10 witness: on a torn-down (all-absent, hence unready) session the
cursor record is still updated while nothing is sent. -/
theorem cursor_recorded_spec_witness :
    ∃ r, send_cursor_data ⟨none, none, none, none, none, none⟩ (.jStr "c") =
        .ok (⟨none, none, none, none, none, some (.jStr "c")⟩, r) ∧
      r.sent = [] := by
  obtain ⟨r, hr, hs⟩ := cursor_recorded_spec ⟨none, none, none, none, none, none⟩
    (.jStr "c") (fun h => by cases h)
  exact ⟨r, hr, hs rfl⟩

end Selkies
